import Mathlib

/-!
Verification of the pantalaimon proxy daemon core (src/pantalaimon/daemon.py)
against its natural-language specification.

The Python source is shallowly embedded: the `ProxyDaemon` attrs class becomes
a Lean structure, its mutable `client_sessions` dict and `default_session`
attribute become explicit state threaded through the handler functions, and the
external collaborators (the homeserver transport and the `PantaClient`
encrypted-session object) become oracle arguments whose outcomes are inputs to
the handler functions.  Calls the handlers make to collaborators are recorded
in an explicit `Op` trace so that claims about which operations run (and how
often) are statable.  Python's `json.loads` (used by the handlers on request
bodies and on the sync `filter` query parameter) is embedded as an executable
fuel-based parser producing Python-value trees (`PyVal`).
-/

namespace Pantalaimon

/-- A Python value as produced by `json.loads` (and as passed around by the
handlers).  `pyfloat` keeps the raw numeric token; the handlers under
verification never compute with floats.  Python's `bool` is a subclass of
`int`, which matters for the sync handler's `isinstance(sync_filter, int)`
check and is captured by `pyIsInt` below. -/
inductive PyVal
  | pynone
  | pybool (b : Bool)
  | pyint (n : Int)
  | pyfloat (raw : String)
  | pystr (s : String)
  | pylist (items : List PyVal)
  | pydict (entries : List (String × PyVal))

/-- First-match lookup in an association list (Python `dict.get` /
`dict[...]` after construction keeps keys unique, see `alistInsert`). -/
def alistLookup {β : Type} : List (String × β) → String → Option β
  | [], _ => none
  | (k, v) :: t, key => if k = key then some v else alistLookup t key

/-- Python `dict` assignment: overwrite the value of an existing key in place,
otherwise append the new binding (insertion order preserved). -/
def alistInsert {β : Type} : List (String × β) → String → β → List (String × β)
  | [], key, v => [(key, v)]
  | (k, w) :: t, key, v =>
    if k = key then (key, v) :: t else (k, w) :: alistInsert t key v

/-- Python `body.get(key, default)` on a decoded JSON mapping. -/
def pyDictGet (kvs : List (String × PyVal)) (key : String) (dflt : PyVal) : PyVal :=
  match alistLookup kvs key with
  | some v => v
  | none => dflt

/-- Python truthiness of a decoded JSON value.  A float is zero exactly when
its mantissa digits are all zero; the raw-token test below agrees with Python
except for exponents extreme enough to underflow, a case no handler here
branches on. -/
def pyTruthy : PyVal → Bool
  | PyVal.pynone => false
  | PyVal.pybool b => b
  | PyVal.pyint n => n != 0
  | PyVal.pyfloat raw => raw.data.any (fun c => decide ('1' ≤ c) && decide (c ≤ '9'))
  | PyVal.pystr s => s != ""
  | PyVal.pylist l => !l.isEmpty
  | PyVal.pydict l => !l.isEmpty

/-- Python `isinstance(v, int)`: true for `int` and for `bool` (a subclass of
`int`). -/
def pyIsInt : PyVal → Bool
  | PyVal.pyint _ => true
  | PyVal.pybool _ => true
  | _ => false

/-- JSON whitespace as accepted by Python's `json` module. -/
def jsonWs (c : Char) : Bool :=
  c = ' ' || c = '\t' || c = '\n' || c = '\r'

/-- Skip JSON whitespace. -/
def skipWs (cs : List Char) : List Char :=
  cs.dropWhile jsonWs

/-- Value of a hexadecimal digit, if any. -/
def hexVal (c : Char) : Option Nat :=
  if '0' ≤ c ∧ c ≤ '9' then some (c.toNat - '0'.toNat)
  else if 'a' ≤ c ∧ c ≤ 'f' then some (c.toNat - 'a'.toNat + 10)
  else if 'A' ≤ c ∧ c ≤ 'F' then some (c.toNat - 'A'.toNat + 10)
  else none

/-- Body of a JSON string, after the opening quote: strict mode of Python's
`json` (raw control characters rejected, only the standard escapes accepted).
Each `\uXXXX` escape becomes one scalar; surrogate-pair recombination is not
reproduced (no claim exercises astral-plane text). -/
def parseStringBody : Nat → List Char → List Char → Except Unit (String × List Char)
  | 0, _, _ => Except.error ()
  | _ + 1, _, [] => Except.error ()
  | fuel + 1, acc, c :: rest =>
    if c = '"' then Except.ok (String.mk acc.reverse, rest)
    else if c = '\\' then
      match rest with
      | [] => Except.error ()
      | e :: rest2 =>
        if e = '"' then parseStringBody fuel ('"' :: acc) rest2
        else if e = '\\' then parseStringBody fuel ('\\' :: acc) rest2
        else if e = '/' then parseStringBody fuel ('/' :: acc) rest2
        else if e = 'b' then parseStringBody fuel ('\x08' :: acc) rest2
        else if e = 'f' then parseStringBody fuel ('\x0c' :: acc) rest2
        else if e = 'n' then parseStringBody fuel ('\n' :: acc) rest2
        else if e = 'r' then parseStringBody fuel ('\r' :: acc) rest2
        else if e = 't' then parseStringBody fuel ('\t' :: acc) rest2
        else if e = 'u' then
          match rest2 with
          | h1 :: h2 :: h3 :: h4 :: rest3 =>
            match hexVal h1, hexVal h2, hexVal h3, hexVal h4 with
            | some a, some b, some c2, some d2 =>
              parseStringBody fuel
                (Char.ofNat (((a * 16 + b) * 16 + c2) * 16 + d2) :: acc) rest3
            | _, _, _, _ => Except.error ()
          | _ => Except.error ()
        else Except.error ()
    else if c.toNat < 32 then Except.error ()
    else parseStringBody fuel (c :: acc) rest

/-- Digits to a natural number. -/
def digitsToNat (l : List Char) : Nat :=
  l.foldl (fun a c => a * 10 + (c.toNat - '0'.toNat)) 0

/-- A JSON number per Python's `json` grammar: `-?(0|[1-9]\d*)(\.\d+)?([eE][-+]?\d+)?`.
Pure integers become `pyint`; anything with a fraction or exponent becomes a
`pyfloat` carrying its raw token. -/
def parseNumber (cs : List Char) : Except Unit (PyVal × List Char) :=
  let negSplit :=
    match cs with
    | '-' :: rest => (['-'], rest)
    | _ => (([] : List Char), cs)
  let negChars := negSplit.1
  let cs1 := negSplit.2
  let intPart : Except Unit (List Char × List Char) :=
    match cs1 with
    | '0' :: rest => Except.ok (['0'], rest)
    | c :: rest =>
      if '1' ≤ c ∧ c ≤ '9' then
        Except.ok (c :: rest.takeWhile Char.isDigit, rest.dropWhile Char.isDigit)
      else Except.error ()
    | [] => Except.error ()
  match intPart with
  | Except.error _ => Except.error ()
  | Except.ok (ip, cs2) =>
    let fracRes : Except Unit (List Char × List Char) :=
      match cs2 with
      | '.' :: rest =>
        let ds := rest.takeWhile Char.isDigit
        if ds.isEmpty then Except.error ()
        else Except.ok ('.' :: ds, rest.dropWhile Char.isDigit)
      | _ => Except.ok ([], cs2)
    match fracRes with
    | Except.error _ => Except.error ()
    | Except.ok (fp, cs3) =>
      let expRes : Except Unit (List Char × List Char) :=
        match cs3 with
        | e :: rest =>
          if e = 'e' ∨ e = 'E' then
            let sgnSplit :=
              match rest with
              | s :: r => if s = '+' ∨ s = '-' then ([s], r) else (([] : List Char), rest)
              | [] => (([] : List Char), rest)
            let ds := sgnSplit.2.takeWhile Char.isDigit
            if ds.isEmpty then Except.error ()
            else Except.ok (e :: (sgnSplit.1 ++ ds), sgnSplit.2.dropWhile Char.isDigit)
          else Except.ok ([], cs3)
        | [] => Except.ok ([], cs3)
      match expRes with
      | Except.error _ => Except.error ()
      | Except.ok (ep, cs4) =>
        if fp.isEmpty ∧ ep.isEmpty then
          let n : Int := Int.ofNat (digitsToNat ip)
          Except.ok (PyVal.pyint (if negChars.isEmpty then n else -n), cs4)
        else
          Except.ok (PyVal.pyfloat (String.mk (negChars ++ ip ++ fp ++ ep)), cs4)

/-- Match a literal tail (after its already-consumed first character). -/
def matchLit (lit : List Char) (cs : List Char) : Option (List Char) :=
  if cs.take lit.length = lit then some (cs.drop lit.length) else none

mutual

/-- One JSON value, Python `json` syntax (including the non-standard `NaN`,
`Infinity` and `-Infinity` accepted by Python's decoder).  Fuel-indexed; every
recursive call happens after consuming at least one character, so fuel equal
to the input length plus two suffices (see `json_loads`). -/
def parseVal : Nat → List Char → Except Unit (PyVal × List Char)
  | 0, _ => Except.error ()
  | fuel + 1, cs =>
    match skipWs cs with
    | [] => Except.error ()
    | c :: rest =>
      if c = '\x7b' then parseMembers fuel rest [] true
      else if c = '[' then parseItems fuel rest [] true
      else if c = '"' then
        match parseStringBody (rest.length + 1) [] rest with
        | Except.ok (s, rest2) => Except.ok (PyVal.pystr s, rest2)
        | Except.error _ => Except.error ()
      else if c = 't' then
        match matchLit ['r', 'u', 'e'] rest with
        | some r => Except.ok (PyVal.pybool true, r)
        | none => Except.error ()
      else if c = 'f' then
        match matchLit ['a', 'l', 's', 'e'] rest with
        | some r => Except.ok (PyVal.pybool false, r)
        | none => Except.error ()
      else if c = 'n' then
        match matchLit ['u', 'l', 'l'] rest with
        | some r => Except.ok (PyVal.pynone, r)
        | none => Except.error ()
      else if c = 'N' then
        match matchLit ['a', 'N'] rest with
        | some r => Except.ok (PyVal.pyfloat "NaN", r)
        | none => Except.error ()
      else if c = 'I' then
        match matchLit ['n', 'f', 'i', 'n', 'i', 't', 'y'] rest with
        | some r => Except.ok (PyVal.pyfloat "Infinity", r)
        | none => Except.error ()
      else if c = '-' ∧ rest.take 8 = ['I', 'n', 'f', 'i', 'n', 'i', 't', 'y'] then
        Except.ok (PyVal.pyfloat "-Infinity", rest.drop 8)
      else parseNumber (c :: rest)

/-- Members of a JSON object, after the opening brace.  Duplicate keys follow
Python `dict` construction: the last occurrence wins (`alistInsert`). -/
def parseMembers : Nat → List Char → List (String × PyVal) → Bool →
    Except Unit (PyVal × List Char)
  | 0, _, _, _ => Except.error ()
  | fuel + 1, cs, acc, isFirst =>
    match skipWs cs with
    | [] => Except.error ()
    | c :: rest =>
      if c = '\x7d' ∧ isFirst then Except.ok (PyVal.pydict acc, rest)
      else if c = '"' then
        match parseStringBody (rest.length + 1) [] rest with
        | Except.error _ => Except.error ()
        | Except.ok (key, rest2) =>
          match skipWs rest2 with
          | ':' :: rest3 =>
            match parseVal fuel rest3 with
            | Except.error _ => Except.error ()
            | Except.ok (v, rest4) =>
              match skipWs rest4 with
              | '\x7d' :: rest5 => Except.ok (PyVal.pydict (alistInsert acc key v), rest5)
              | ',' :: rest5 => parseMembers fuel rest5 (alistInsert acc key v) false
              | _ => Except.error ()
          | _ => Except.error ()
      else Except.error ()

/-- Items of a JSON array, after the opening bracket. -/
def parseItems : Nat → List Char → List PyVal → Bool →
    Except Unit (PyVal × List Char)
  | 0, _, _, _ => Except.error ()
  | fuel + 1, cs, acc, isFirst =>
    match skipWs cs with
    | [] => Except.error ()
    | c :: rest =>
      if c = ']' ∧ isFirst then Except.ok (PyVal.pylist acc.reverse, rest)
      else
        match parseVal fuel (c :: rest) with
        | Except.error _ => Except.error ()
        | Except.ok (v, rest2) =>
          match skipWs rest2 with
          | ']' :: rest3 => Except.ok (PyVal.pylist (v :: acc).reverse, rest3)
          | ',' :: rest3 => parseItems fuel rest3 (v :: acc) false
          | _ => Except.error ()

end

/-- Python `json.loads`: parse one value and require only whitespace after it.
An `Except.error ()` result stands for `json.JSONDecodeError`. -/
def json_loads (s : String) : Except Unit PyVal :=
  match parseVal (s.data.length + 2) s.data with
  | Except.ok (v, rest) => if (skipWs rest).isEmpty then Except.ok v else Except.error ()
  | Except.error _ => Except.error ()

/-- Immutable view of one inbound HTTP request (aiohttp `BaseRequest`):
method, path, query parameters (a multidict, first occurrence wins on
lookup), headers (a case-insensitive multidict) and the body text. -/
structure Request where
  method : String
  path : String
  query : List (String × String)
  headers : List (String × String)
  body : String

/-- Python `request.query.get(key, default)`: first value bound to the key. -/
def queryGetD (q : List (String × String)) (key dflt : String) : String :=
  match q.find? (fun p => p.1 = key) with
  | some p => p.2
  | none => dflt

/-- Python `request.query.get(key, None)`. -/
def queryGetOpt (q : List (String × String)) (key : String) : Option String :=
  match q.find? (fun p => p.1 = key) with
  | some p => some p.2
  | none => none

/-- ASCII lowercasing of a header name (case-insensitive multidict keys). -/
def lowerStr (s : String) : String :=
  String.mk (s.data.map Char.toLower)

/-- Python `request.headers.get(key, default)` on aiohttp's case-insensitive
header multidict. -/
def headerGetD (hs : List (String × String)) (key dflt : String) : String :=
  match hs.find? (fun p => lowerStr p.1 = lowerStr key) with
  | some p => p.2
  | none => dflt

/-- Python `str.strip(chars)`: remove from BOTH ends every character drawn
from the character set `chars` (not a prefix removal). -/
def pyStrip (chars : String) (s : String) : String :=
  let cs := chars.data
  let dropped := s.data.dropWhile (fun c => cs.contains c)
  String.mk ((dropped.reverse.dropWhile (fun c => cs.contains c)).reverse)

/-- The character set of `"Bearer "`, as used by `str.strip` in
`ProxyDaemon.get_access_token`. -/
def bearerChars : List Char := "Bearer ".data

/-- Embeds `ProxyDaemon.get_access_token`: the `access_token` query parameter
if truthy, else the Authorization header passed through `.strip("Bearer ")`. -/
def get_access_token (req : Request) : String :=
  let access_token := queryGetD req.query "access_token" ""
  if access_token = "" then
    pyStrip "Bearer " (headerGetD req.headers "Authorization" "")
  else access_token

/-- Modelled from the spec: the words of §4.1 describe the Authorization
handling as a blind removal of one leading literal `"Bearer "` prefix,
leaving the remainder of the header value intact.  This definition follows
those words and exists only to be compared with the code's
`get_access_token`. -/
def specBearerStrip (s : String) : String :=
  if s.data.take 7 = "Bearer ".data then String.mk (s.data.drop 7) else s

/-- Status code and body text of a response produced by the proxy
(aiohttp `web.Response(status=..., text=...)`; `status` defaults to 200). -/
structure ProxiedResponse where
  status : Nat
  body : String
  deriving DecidableEq

/-- Status code and body text observed on an upstream transport response. -/
structure UpstreamResponse where
  status : Nat
  body : String
  deriving DecidableEq

/-- The outbound request assembled by `ProxyDaemon.forward_request` and given
to `session.request(...)`. -/
structure OutboundRequest where
  method : String
  url : String
  data : String
  params : List (String × String)
  headers : List (String × String)
  proxy : Option String
  ssl : Option Bool
  deriving DecidableEq

/-- The `ProxyDaemon` attrs class.  `homeserver`, `proxy` and `ssl` are the
constructor attributes; `client_sessions` (token → `PantaClient`) and
`default_session` are its mutable state, threaded explicitly.  Clients and
transports are identified by `Nat` ids; `nextId` is the model's supply of
fresh ids and stands for Python object identity. -/
structure ProxyDaemon where
  homeserver : String
  proxy : Option String
  ssl : Option Bool
  client_sessions : List (String × Nat)
  default_session : Option Nat
  nextId : Nat

/-- The transport a request resolves to in `ProxyDaemon.router`: either the
`client_session` owned by a registered `PantaClient`, or the lazily created
shared anonymous `ClientSession`. -/
inductive Transport
  | clientOwned (id : Nat)
  | anon (id : Nat)
  deriving DecidableEq

/-- One call made by a handler to a collaborator (the `PantaClient` session
object or a transport constructor), recorded in order of execution. -/
inductive Op
  | readBody
  | roomSend (room eventType txnid : String) (content : PyVal)
  | shareGroupSession (room : String)
  | createClient (id : Nat) (user deviceId : PyVal)
  | clientLogin (id : Nat) (password deviceName : PyVal)
  | closeClient (id : Nat)
  | closeAnon (id : Nat)

/-- Embeds `ProxyDaemon.forward_request` up to the `session.request(...)`
call: the outbound request it assembles.  `Host` is popped from the copied
header multidict (first case-insensitive match, per `CIMultiDict.pop`); the
`ssl` keyword is the literal `False` from the source, independent of the
daemon's configured `ssl` attribute. -/
def popHost : List (String × String) → List (String × String)
  | [] => []
  | (k, v) :: t => if lowerStr k = "host" then t else (k, v) :: popHost t

/-- The outbound request built by `forward_request` (see `popHost`). -/
def forward_request (st : ProxyDaemon) (req : Request) : OutboundRequest :=
  { method := req.method
    url := st.homeserver ++ req.path
    data := req.body
    params := req.query
    headers := popHost req.headers
    proxy := st.proxy
    ssl := some false }

/-- Embeds the session-resolution half of `ProxyDaemon.router`: look the
extracted token up in `client_sessions`; a hit yields that client's own
transport, otherwise the shared `default_session` is used, constructed first
if it does not exist yet. -/
def resolve (st : ProxyDaemon) (req : Request) : Transport × ProxyDaemon :=
  let token := get_access_token req
  match alistLookup st.client_sessions token with
  | some c => (Transport.clientOwned c, st)
  | none =>
    match st.default_session with
    | some d => (Transport.anon d, st)
    | none =>
      (Transport.anon st.nextId,
       { st with default_session := some st.nextId, nextId := st.nextId + 1 })

/-- Embeds `ProxyDaemon.router`, the generic forwarder: resolve a transport,
forward the rebuilt request through it (`upstream` is the transport's
behavior, an oracle), and answer with `web.Response(text=await resp.text())`
— whose status defaults to 200. -/
def router (st : ProxyDaemon) (req : Request)
    (upstream : Transport → OutboundRequest → UpstreamResponse) :
    ProxyDaemon × Transport × ProxiedResponse :=
  let r := resolve st req
  let resp := upstream r.1 (forward_request st req)
  (r.2, r.1, { status := 200, body := resp.body })

/-- Body of the local `M_MISSING_TOKEN` error, exactly as produced by
`json.dumps` in `ProxyDaemon._missing_token`. -/
def missingTokenBody : String :=
  "\x7b\"errcode\": \"M_MISSING_TOKEN\", \"error\": \"Missing access token.\"\x7d"

/-- Body of the local `M_UNKNOWN_TOKEN` error (`ProxyDaemon._unknown_token`). -/
def unknownTokenBody : String :=
  "\x7b\"errcode\": \"M_UNKNOWN_TOKEN\", \"error\": \"Unrecognised access token.\"\x7d"

/-- Body of the local `M_NOT_JSON` error (`ProxyDaemon._not_json` and the
login handler's inline 500 variant). -/
def notJsonBody : String :=
  "\x7b\"errcode\": \"M_NOT_JSON\", \"error\": \"Request did not contain valid JSON.\"\x7d"

/-- The 401 `M_MISSING_TOKEN` response. -/
def missingTokenResponse : ProxiedResponse := { status := 401, body := missingTokenBody }

/-- The 401 `M_UNKNOWN_TOKEN` response. -/
def unknownTokenResponse : ProxiedResponse := { status := 401, body := unknownTokenBody }

/-- The 400 `M_NOT_JSON` response. -/
def notJsonResponse : ProxiedResponse := { status := 400, body := notJsonBody }

/-- Embeds `ProxyDaemon._get_login_user`: username precedence
`identifier.user` > top-level `user` > `""`.  `identifier.get(...)` on a
truthy non-mapping raises `AttributeError` in Python, represented by
`Except.error`. -/
def get_login_user (body : List (String × PyVal)) : Except Unit PyVal :=
  let identifier := pyDictGet body "identifier" PyVal.pynone
  if pyTruthy identifier then
    match identifier with
    | PyVal.pydict ikvs =>
      let user := pyDictGet ikvs "user" PyVal.pynone
      if pyTruthy user then Except.ok user
      else Except.ok (pyDictGet body "user" (PyVal.pystr ""))
    | _ => Except.error ()
  else Except.ok (pyDictGet body "user" (PyVal.pystr ""))

/-- Outcome of the `PantaClient.login` credential exchange (oracle): a
`LoginResponse` carrying the new access token, or any other response shape;
either carries the transport response's status and body, relayed verbatim. -/
inductive LoginResult
  | success (access_token : String) (status : Nat) (body : String)
  | failure (status : Nat) (body : String)

/-- What the login handler produces: a response, or an uncaught Python
exception escaping the handler (`AttributeError` from `.get` on a decoded
non-mapping body). -/
inductive LoginReply
  | response (r : ProxiedResponse)
  | raised

/-- Embeds `ProxyDaemon.login`: parse the body (unparsable → local 500
`M_NOT_JSON`, the documented aiohttp workaround), extract the credentials,
construct a `PantaClient` (fresh id), perform the exchange; on a
`LoginResponse` register the client under the returned token, otherwise close
it; relay the exchange's transport status and body. -/
def login (st : ProxyDaemon) (req : Request) (oracle : LoginResult) :
    ProxyDaemon × LoginReply × List Op :=
  match json_loads req.body with
  | Except.error _ => (st, LoginReply.response { status := 500, body := notJsonBody }, [])
  | Except.ok (PyVal.pydict kvs) =>
    match get_login_user kvs with
    | Except.error _ => (st, LoginReply.raised, [])
    | Except.ok user =>
      let password := pyDictGet kvs "password" (PyVal.pystr "")
      let device_id := pyDictGet kvs "device_id" (PyVal.pystr "")
      let device_name := pyDictGet kvs "initial_device_display_name" (PyVal.pystr "pantalaimon")
      let client := st.nextId
      match oracle with
      | LoginResult.success t s b =>
        ({ st with nextId := st.nextId + 1,
                   client_sessions := alistInsert st.client_sessions t client },
         LoginReply.response { status := s, body := b },
         [Op.createClient client user device_id, Op.clientLogin client password device_name])
      | LoginResult.failure s b =>
        ({ st with nextId := st.nextId + 1 },
         LoginReply.response { status := s, body := b },
         [Op.createClient client user device_id, Op.clientLogin client password device_name,
          Op.closeClient client])
  | Except.ok _ => (st, LoginReply.raised, [])

/-- How far the sync handler gets before delegating: an early local response
(the 401 token gates), or the `client.sync(timeout, sync_filter)` call with
the exact arguments passed.  The processing after that call (key maintenance,
decryption) does not influence these claims and is not modelled. -/
inductive SyncStep
  | earlyResponse (r : ProxiedResponse)
  | syncCall (timeout : Option String) (filt : PyVal)

/-- Embeds `ProxyDaemon.sync` through its delegation to `client.sync`: the
token gates, then the `filter`/`timeout` query handling.  `json.loads` on an
absent (`None`) filter raises `TypeError`, on an undecodable string
`JSONDecodeError`; both are caught by the bare `pass`, leaving the previous
value in place.  A decoded `int` (including `bool`) is then replaced by
`None`. -/
def sync (st : ProxyDaemon) (req : Request) : SyncStep :=
  let access_token := get_access_token req
  if access_token = "" then SyncStep.earlyResponse missingTokenResponse
  else
    match alistLookup st.client_sessions access_token with
    | none => SyncStep.earlyResponse unknownTokenResponse
    | some _ =>
      let sync_filter :=
        match queryGetOpt req.query "filter" with
        | none => PyVal.pynone
        | some s =>
          match json_loads s with
          | Except.ok v => v
          | Except.error _ => PyVal.pystr s
      let sync_filter := if pyIsInt sync_filter then PyVal.pynone else sync_filter
      SyncStep.syncCall (queryGetOpt req.query "timeout") sync_filter

/-- Outcome of one `client.room_send` call (oracle): a response object whose
transport status and body are relayed, or a raised exception. -/
inductive Exc
  | groupEncryptionError
  | otherError (e : String)
  deriving DecidableEq

/-- Result of one `client.room_send` attempt. -/
inductive RoomSendResult
  | ok (status : Nat) (body : String)
  | exc (e : Exc)

/-- Outcomes of the two possible `room_send` attempts of one request. -/
structure SendOracle where
  firstSend : RoomSendResult
  retrySend : RoomSendResult

/-- What the send handler produces: a response, or an exception escaping the
handler uncaught. -/
inductive SendReply
  | response (r : ProxiedResponse)
  | raised (e : Exc)

/-- Embeds `ProxyDaemon.send_message`: token gates first, then the body is
read and parsed (malformed → local 400 `M_NOT_JSON`), then `room_send`; a
`GroupEncryptionError` — and only that — triggers one `share_group_session`
(whose return value the handler ignores) and exactly one retried `room_send`,
whose own failure propagates uncaught.  The path parameters `room_id`,
`event_type` and `txnid` are bound by the route before the handler runs and
are passed explicitly.  The `Op` trace records the body read and every
collaborator call. -/
def send_message (st : ProxyDaemon) (req : Request)
    (room_id event_type txnid : String) (oracle : SendOracle) :
    SendReply × List Op :=
  let access_token := get_access_token req
  if access_token = "" then (SendReply.response missingTokenResponse, [])
  else
    match alistLookup st.client_sessions access_token with
    | none => (SendReply.response unknownTokenResponse, [])
    | some _ =>
      match json_loads req.body with
      | Except.error _ => (SendReply.response notJsonResponse, [Op.readBody])
      | Except.ok content =>
        match oracle.firstSend with
        | RoomSendResult.ok s b =>
          (SendReply.response { status := s, body := b },
           [Op.readBody, Op.roomSend room_id event_type txnid content])
        | RoomSendResult.exc Exc.groupEncryptionError =>
          match oracle.retrySend with
          | RoomSendResult.ok s b =>
            (SendReply.response { status := s, body := b },
             [Op.readBody, Op.roomSend room_id event_type txnid content,
              Op.shareGroupSession room_id,
              Op.roomSend room_id event_type txnid content])
          | RoomSendResult.exc e =>
            (SendReply.raised e,
             [Op.readBody, Op.roomSend room_id event_type txnid content,
              Op.shareGroupSession room_id,
              Op.roomSend room_id event_type txnid content])
        | RoomSendResult.exc (Exc.otherError e) =>
          (SendReply.raised (Exc.otherError e),
           [Op.readBody, Op.roomSend room_id event_type txnid content])

/-- Embeds `ProxyDaemon.shutdown`: close every client currently in
`client_sessions` (the dict is NOT cleared), then close `default_session` if
it exists and set it to `None`. -/
def shutdown (st : ProxyDaemon) : ProxyDaemon × List Op :=
  let closes := st.client_sessions.map (fun p => Op.closeClient p.2)
  match st.default_session with
  | some d => ({ st with default_session := none }, closes ++ [Op.closeAnon d])
  | none => (st, closes)

/-- A fresh daemon: no registered sessions, no anonymous transport yet. -/
def exDaemon : ProxyDaemon :=
  { homeserver := "https://hs", proxy := none, ssl := none,
    client_sessions := [], default_session := none, nextId := 0 }

/-- A daemon holding one registered session, token `"tkn"`, client id 7. -/
def exDaemonReg : ProxyDaemon :=
  { homeserver := "https://hs", proxy := none, ssl := none,
    client_sessions := [("tkn", 7)], default_session := none, nextId := 8 }

/-- `exDaemonReg` after its anonymous transport (id 3) has been created. -/
def exDaemonAnon : ProxyDaemon :=
  { exDaemonReg with default_session := some 3 }

/-- A request presenting no credential at all. -/
def exPlainReq : Request :=
  { method := "GET", path := "/x", query := [], headers := [], body := "" }

/-- A request bearing the unregistered token `"bad"` and a malformed body. -/
def exUnknownReq : Request :=
  { method := "GET", path := "/x", query := [("access_token", "bad")],
    headers := [], body := "x" }

/-- A request whose Authorization header is `"Bearer rat"`. -/
def exBearerReq : Request :=
  { method := "GET", path := "/x", query := [],
    headers := [("Authorization", "Bearer rat")], body := "" }

/-- A request whose Authorization header is `"Bearer tok"`. -/
def exBearerTokReq : Request :=
  { method := "GET", path := "/x", query := [],
    headers := [("Authorization", "Bearer tok")], body := "" }

/-- A registered-token send request with a well-formed JSON body. -/
def exSendReq : Request :=
  { method := "PUT", path := "/_matrix/client/r0/rooms/r1/send/m.room.message/t1",
    query := [("access_token", "tkn")], headers := [], body := "\x7b\"a\": 1\x7d" }

/-- A send oracle whose first attempt raises `GroupEncryptionError` and whose
retried attempt raises another error. -/
def exSendOracle : SendOracle :=
  { firstSend := RoomSendResult.exc Exc.groupEncryptionError,
    retrySend := RoomSendResult.exc (Exc.otherError "boom") }

/-- A login request with the legacy top-level `user` field. -/
def exLoginReq : Request :=
  { method := "POST", path := "/_matrix/client/r0/login", query := [], headers := [],
    body := "\x7b\"user\": \"alice\", \"password\": \"p\"\x7d" }

/-- A request bearing the token `"abc"` in its query string. -/
def exTokenReq : Request :=
  { method := "GET", path := "/y", query := [("access_token", "abc")],
    headers := [], body := "" }

/-- A registered-token sync request whose `filter` does not decode as JSON. -/
def exFilterReq : Request :=
  { method := "GET", path := "/_matrix/client/r0/sync",
    query := [("access_token", "tkn"), ("filter", "not-json")], headers := [], body := "" }

/-- A registered-token sync request whose `filter` decodes to the integer 42. -/
def exFilter42Req : Request :=
  { method := "GET", path := "/_matrix/client/r0/sync",
    query := [("access_token", "tkn"), ("filter", "42")], headers := [], body := "" }

/-- An upstream transport that answers 404 `"nope"` to every request. -/
def exUpstream404 : Transport → OutboundRequest → UpstreamResponse :=
  fun _ _ => { status := 404, body := "nope" }

set_option maxRecDepth 8000

/-- Dropping while a predicate holds skips any leading block on which the
predicate holds everywhere. -/
theorem dropWhile_append_of_all (p : Char → Bool) (l₁ l₂ : List Char)
    (h : ∀ a ∈ l₁, p a = true) :
    List.dropWhile p (l₁ ++ l₂) = List.dropWhile p l₂ := by
  induction l₁ with
  | nil => rfl
  | cons a t ih =>
    rw [List.cons_append, List.dropWhile_cons, h a (List.mem_cons_self a t), if_pos rfl]
    exact ih (fun b hb => h b (List.mem_cons_of_mem a hb))

/-- Looking up the key just inserted finds the inserted value. -/
theorem alistLookup_insert_self {β : Type} (l : List (String × β)) (k : String) (v : β) :
    alistLookup (alistInsert l k v) k = some v := by
  induction l with
  | nil => simp [alistInsert, alistLookup]
  | cons p t ih =>
    by_cases h : p.1 = k
    · simp [alistInsert, alistLookup, h]
    · simp only [alistInsert, alistLookup, h, if_neg h]
      exact ih

/-- C1, counterexample: on an unmatched request whose upstream answer has
status 404, the generic forwarder's response does not carry the upstream
status — `web.Response(text=...)` defaults to 200 — so the claim that the
response has the same status code as the upstream response is false. -/
theorem c1_status_not_relayed :
    (router exDaemon exPlainReq exUpstream404).2.2.status = 200 ∧
    (exUpstream404 (router exDaemon exPlainReq exUpstream404).2.1
        (forward_request exDaemon exPlainReq)).status = 404 ∧
    (router exDaemon exPlainReq exUpstream404).2.2.status ≠
      (exUpstream404 (router exDaemon exPlainReq exUpstream404).2.1
        (forward_request exDaemon exPlainReq)).status := by
  refine ⟨rfl, rfl, ?_⟩
  decide

/-- C1 (amended): for every request handled by the generic forwarder, the
response body is exactly the upstream response's body text, but the status
code is always 200, regardless of the upstream status. -/
theorem c1_forwarder_body_relayed_status_200 (st : ProxyDaemon) (req : Request)
    (upstream : Transport → OutboundRequest → UpstreamResponse) :
    (router st req upstream).2.2.body =
      (upstream (router st req upstream).2.1 (forward_request st req)).body ∧
    (router st req upstream).2.2.status = 200 :=
  ⟨rfl, rfl⟩

/-- C2, counterexample: with Authorization header `"Bearer rat"`, Python's
`.strip("Bearer ")` removes characters of the set from BOTH ends and yields
`"t"`, not the `"rat"` a blind one-prefix strip (the claim's reading) would
leave. -/
theorem c2_not_blind_strip :
    get_access_token exBearerReq = "t" ∧
    specBearerStrip (headerGetD exBearerReq.headers "Authorization" "") = "rat" ∧
    get_access_token exBearerReq ≠
      specBearerStrip (headerGetD exBearerReq.headers "Authorization" "") := by
  refine ⟨by decide, by decide, by decide⟩

/-- C2 (amended): credential extraction returns the `access_token` query
parameter when it is non-empty; when that is empty and the Authorization
header is absent (or empty) it returns the empty string; otherwise it applies
Python `str.strip("Bearer ")` — removal of every leading and trailing
character drawn from the set of `"Bearer "` — to the header value, which
coincides with removing one `"Bearer "` prefix exactly when the remaining
token neither starts nor ends with a character of that set. -/
theorem c2_token_extraction (req : Request) :
    (queryGetD req.query "access_token" "" ≠ "" →
      get_access_token req = queryGetD req.query "access_token" "") ∧
    (queryGetD req.query "access_token" "" = "" →
      headerGetD req.headers "Authorization" "" = "" →
      get_access_token req = "") ∧
    (∀ t : String,
      queryGetD req.query "access_token" "" = "" →
      headerGetD req.headers "Authorization" "" = "Bearer " ++ t →
      List.dropWhile (fun c => bearerChars.contains c) t.data = t.data →
      List.dropWhile (fun c => bearerChars.contains c) t.data.reverse = t.data.reverse →
      get_access_token req = t) := by
  refine ⟨?_, ?_, ?_⟩
  · intro h
    simp only [get_access_token]
    rw [if_neg h]
  · intro h1 h2
    simp only [get_access_token]
    rw [if_pos h1, h2]
    decide
  · intro t h1 h2 hd hr
    simp only [bearerChars] at hd hr
    simp only [get_access_token]
    rw [if_pos h1, h2]
    simp only [pyStrip, String.data_append]
    rw [dropWhile_append_of_all _ _ t.data (by decide), hd, hr, List.reverse_reverse]

/-- C2 witness: for the Authorization header `"Bearer tok"` the extracted
credential is `"tok"`. -/
theorem c2_token_extraction_witness :
    get_access_token exBearerTokReq = "tok" :=
  (c2_token_extraction exBearerTokReq).2.2 "tok" (by decide) (by decide)
    (by decide) (by decide)

/-- C3: for a registered token and a well-formed body, the send handler
retries exactly when the first `room_send` raises `GroupEncryptionError`:
then exactly one `share_group_session` for that room is followed by exactly
one retried `room_send`; a failure of the retried send (of any kind) is
surfaced with no further share and no further retry; a first failure of any
other kind triggers neither share nor retry. -/
theorem c3_send_retry (st : ProxyDaemon) (req : Request)
    (room evt txn : String) (o : SendOracle) (c : Nat) (v : PyVal)
    (htok : get_access_token req ≠ "")
    (hreg : alistLookup st.client_sessions (get_access_token req) = some c)
    (hbody : json_loads req.body = Except.ok v) :
    (∀ s b, o.firstSend = RoomSendResult.ok s b →
      send_message st req room evt txn o =
        (SendReply.response { status := s, body := b },
         [Op.readBody, Op.roomSend room evt txn v])) ∧
    (o.firstSend = RoomSendResult.exc Exc.groupEncryptionError →
      (∀ s b, o.retrySend = RoomSendResult.ok s b →
        send_message st req room evt txn o =
          (SendReply.response { status := s, body := b },
           [Op.readBody, Op.roomSend room evt txn v, Op.shareGroupSession room,
            Op.roomSend room evt txn v])) ∧
      (∀ e, o.retrySend = RoomSendResult.exc e →
        send_message st req room evt txn o =
          (SendReply.raised e,
           [Op.readBody, Op.roomSend room evt txn v, Op.shareGroupSession room,
            Op.roomSend room evt txn v]))) ∧
    (∀ e, o.firstSend = RoomSendResult.exc e → e ≠ Exc.groupEncryptionError →
      send_message st req room evt txn o =
        (SendReply.raised e, [Op.readBody, Op.roomSend room evt txn v])) := by
  refine ⟨?_, ?_, ?_⟩
  · intro s b h
    simp [send_message, if_neg htok, hreg, hbody, h]
  · intro h
    constructor
    · intro s b h2
      simp [send_message, if_neg htok, hreg, hbody, h, h2]
    · intro e h2
      simp [send_message, if_neg htok, hreg, hbody, h, h2]
  · intro e h hne
    cases e with
    | groupEncryptionError => exact absurd rfl hne
    | otherError m => simp [send_message, if_neg htok, hreg, hbody, h]

/-- C3 witness: first send raises `GroupEncryptionError`, the retried send
raises `"boom"`; the handler shares once, retries once and surfaces the
second failure. -/
theorem c3_send_retry_witness :
    send_message exDaemonReg exSendReq "r1" "m.room.message" "t1" exSendOracle =
      (SendReply.raised (Exc.otherError "boom"),
       [Op.readBody,
        Op.roomSend "r1" "m.room.message" "t1" (PyVal.pydict [("a", PyVal.pyint 1)]),
        Op.shareGroupSession "r1",
        Op.roomSend "r1" "m.room.message" "t1" (PyVal.pydict [("a", PyVal.pyint 1)])]) :=
  ((c3_send_retry exDaemonReg exSendReq "r1" "m.room.message" "t1" exSendOracle 7
      (PyVal.pydict [("a", PyVal.pyint 1)]) (by decide) (by rfl) (by rfl)).2.1 rfl).2
    (Exc.otherError "boom") rfl

/-- C4: a sync or send request with an empty extracted credential gets the
local 401 `M_MISSING_TOKEN` response, and one with a non-empty credential
absent from the registry gets the local 401 `M_UNKNOWN_TOKEN` response; in
both cases no upstream call and no Session operation happens (the send trace
is empty and the sync handler never reaches its delegation step). -/
theorem c4_token_precondition (st : ProxyDaemon) (req : Request)
    (room evt txn : String) (o : SendOracle) :
    (get_access_token req = "" →
      sync st req = SyncStep.earlyResponse missingTokenResponse ∧
      send_message st req room evt txn o = (SendReply.response missingTokenResponse, [])) ∧
    (get_access_token req ≠ "" →
      alistLookup st.client_sessions (get_access_token req) = none →
      sync st req = SyncStep.earlyResponse unknownTokenResponse ∧
      send_message st req room evt txn o = (SendReply.response unknownTokenResponse, [])) := by
  constructor
  · intro h
    constructor
    · simp [sync, h]
    · simp [send_message, h]
  · intro h1 h2
    constructor
    · simp [sync, if_neg h1, h2]
    · simp [send_message, if_neg h1, h2]

/-- C4 witness: a tokenless request is answered `M_MISSING_TOKEN` and a
request bearing the unregistered token `"bad"` (with a malformed body) is
answered `M_UNKNOWN_TOKEN`, with empty operation traces. -/
theorem c4_token_precondition_witness :
    (sync exDaemonReg exPlainReq = SyncStep.earlyResponse missingTokenResponse ∧
     send_message exDaemonReg exPlainReq "r" "e" "t" exSendOracle =
       (SendReply.response missingTokenResponse, [])) ∧
    (sync exDaemonReg exUnknownReq = SyncStep.earlyResponse unknownTokenResponse ∧
     send_message exDaemonReg exUnknownReq "r" "e" "t" exSendOracle =
       (SendReply.response unknownTokenResponse, [])) :=
  ⟨(c4_token_precondition exDaemonReg exPlainReq "r" "e" "t" exSendOracle).1 (by decide),
   (c4_token_precondition exDaemonReg exUnknownReq "r" "e" "t" exSendOracle).2
     (by decide) (by rfl)⟩

/-- C5: a login whose exchange succeeds with token `t` registers the newly
constructed client (id `st.nextId`) under `t`, a subsequent request bearing
`t` resolves to that client's own transport (not the anonymous one), the
upstream status and body are relayed, and no close happens; a login whose
exchange fails leaves the registry unchanged, closes the new client, and
still relays the upstream status and body. -/
theorem c5_login_registration (st : ProxyDaemon) (req req2 : Request)
    (t : String) (s : Nat) (b : String) (kvs : List (String × PyVal)) (u : PyVal)
    (hbody : json_loads req.body = Except.ok (PyVal.pydict kvs))
    (huser : get_login_user kvs = Except.ok u)
    (ht : t ≠ "")
    (hreq2 : queryGetD req2.query "access_token" "" = t) :
    (alistLookup (login st req (LoginResult.success t s b)).1.client_sessions t =
       some st.nextId) ∧
    ((resolve (login st req (LoginResult.success t s b)).1 req2).1 =
       Transport.clientOwned st.nextId) ∧
    ((login st req (LoginResult.success t s b)).2.1 =
       LoginReply.response { status := s, body := b }) ∧
    (∀ i, Op.closeClient i ∉ (login st req (LoginResult.success t s b)).2.2) ∧
    ((login st req (LoginResult.failure s b)).1.client_sessions = st.client_sessions) ∧
    (Op.closeClient st.nextId ∈ (login st req (LoginResult.failure s b)).2.2) ∧
    ((login st req (LoginResult.failure s b)).2.1 =
       LoginReply.response { status := s, body := b }) := by
  have hlook : alistLookup (login st req (LoginResult.success t s b)).1.client_sessions t =
      some st.nextId := by
    simp [login, hbody, huser, alistLookup_insert_self]
  have htok2 : get_access_token req2 = t := by
    simp only [get_access_token]
    rw [hreq2, if_neg ht]
  refine ⟨hlook, ?_, ?_, ?_, ?_, ?_, ?_⟩
  · simp only [resolve, htok2, hlook]
  · simp [login, hbody, huser]
  · intro i
    simp [login, hbody, huser]
  · simp [login, hbody, huser]
  · simp [login, hbody, huser]
  · simp [login, hbody, huser]

/-- C5 witness: after a successful login returning token `"abc"`, the fresh
daemon maps `"abc"` to client 0, a request bearing `"abc"` resolves to that
client's transport, the success response is relayed and nothing is closed;
the failing variant keeps the registry empty and closes client 0. -/
theorem c5_login_registration_witness :
    (alistLookup
       (login exDaemon exLoginReq (LoginResult.success "abc" 200 "okb")).1.client_sessions
       "abc" = some 0) ∧
    ((resolve (login exDaemon exLoginReq (LoginResult.success "abc" 200 "okb")).1
        exTokenReq).1 = Transport.clientOwned 0) ∧
    ((login exDaemon exLoginReq (LoginResult.success "abc" 200 "okb")).2.1 =
       LoginReply.response { status := 200, body := "okb" }) ∧
    (∀ i, Op.closeClient i ∉
       (login exDaemon exLoginReq (LoginResult.success "abc" 200 "okb")).2.2) ∧
    ((login exDaemon exLoginReq (LoginResult.failure 200 "okb")).1.client_sessions =
       exDaemon.client_sessions) ∧
    (Op.closeClient 0 ∈ (login exDaemon exLoginReq (LoginResult.failure 200 "okb")).2.2) ∧
    ((login exDaemon exLoginReq (LoginResult.failure 200 "okb")).2.1 =
       LoginReply.response { status := 200, body := "okb" }) :=
  c5_login_registration exDaemon exLoginReq exTokenReq "abc" 200 "okb"
    [("user", PyVal.pystr "alice"), ("password", PyVal.pystr "p")] (PyVal.pystr "alice")
    (by rfl) (by rfl) (by decide) (by rfl)

/-- C6, counterexample: with a registered token and `filter=not-json`, whose
value fails to decode as JSON, the sync handler does NOT treat the filter as
absent: the bare `except: pass` leaves the raw string in place, and
`client.sync` is invoked with the undecoded string `"not-json"`, not with
`None`. -/
theorem c6_decode_failure_passthrough :
    sync exDaemonReg exFilterReq = SyncStep.syncCall none (PyVal.pystr "not-json") ∧
    PyVal.pystr "not-json" ≠ PyVal.pynone := by
  refine ⟨rfl, ?_⟩
  intro h
  exact PyVal.noConfusion h

/-- C6 (amended): for a registered token, an absent `filter` and a `filter`
decoding to a JSON integer (or boolean — Python `bool` is an `int`) both
reach `client.sync` as an absent filter; a `filter` that fails to decode is
passed through as the raw undecoded string; any other decoded value (string,
list, mapping, float) is passed through decoded, not treated as absent. -/
theorem c6_filter_handling (st : ProxyDaemon) (req : Request) (c : Nat)
    (htok : get_access_token req ≠ "")
    (hreg : alistLookup st.client_sessions (get_access_token req) = some c) :
    (queryGetOpt req.query "filter" = none →
      sync st req = SyncStep.syncCall (queryGetOpt req.query "timeout") PyVal.pynone) ∧
    (∀ s, queryGetOpt req.query "filter" = some s →
      json_loads s = Except.error () →
      sync st req = SyncStep.syncCall (queryGetOpt req.query "timeout") (PyVal.pystr s)) ∧
    (∀ s n, queryGetOpt req.query "filter" = some s →
      json_loads s = Except.ok (PyVal.pyint n) →
      sync st req = SyncStep.syncCall (queryGetOpt req.query "timeout") PyVal.pynone) ∧
    (∀ s b2, queryGetOpt req.query "filter" = some s →
      json_loads s = Except.ok (PyVal.pybool b2) →
      sync st req = SyncStep.syncCall (queryGetOpt req.query "timeout") PyVal.pynone) ∧
    (∀ s v, queryGetOpt req.query "filter" = some s →
      json_loads s = Except.ok v → pyIsInt v = false →
      sync st req = SyncStep.syncCall (queryGetOpt req.query "timeout") v) := by
  refine ⟨?_, ?_, ?_, ?_, ?_⟩
  · intro h
    simp [sync, if_neg htok, hreg, h, pyIsInt]
  · intro s h h2
    simp [sync, if_neg htok, hreg, h, h2, pyIsInt]
  · intro s n h h2
    simp [sync, if_neg htok, hreg, h, h2, pyIsInt]
  · intro s b2 h h2
    simp [sync, if_neg htok, hreg, h, h2, pyIsInt]
  · intro s v h h2 h3
    simp [sync, if_neg htok, hreg, h, h2, h3]

/-- C6 witness: `filter=42` decodes to the integer 42 and `client.sync`
receives an absent filter. -/
theorem c6_filter_handling_witness :
    sync exDaemonReg exFilter42Req = SyncStep.syncCall none PyVal.pynone :=
  (c6_filter_handling exDaemonReg exFilter42Req 7 (by decide) (by rfl)).2.2.1
    "42" 42 (by rfl) (by rfl)

/-- C7: when the extracted token is not registered, the router reuses an
already-created anonymous transport unchanged; when none exists yet it
creates exactly one, which the next such request then reuses with no second
construction; and a request resolves to a registered client's transport only
when its token is in the registry (never to both kinds of transport). -/
theorem c7_anonymous_transport_once (st : ProxyDaemon) (req req2 : Request) (d : Nat)
    (h1 : alistLookup st.client_sessions (get_access_token req) = none)
    (h2 : alistLookup st.client_sessions (get_access_token req2) = none) :
    (st.default_session = some d → resolve st req = (Transport.anon d, st)) ∧
    (st.default_session = none →
      (resolve st req).1 = Transport.anon st.nextId ∧
      (resolve st req).2.default_session = some st.nextId ∧
      (resolve (resolve st req).2 req2).1 = Transport.anon st.nextId ∧
      (resolve (resolve st req).2 req2).2 = (resolve st req).2) ∧
    (∀ r k, (resolve st r).1 = Transport.clientOwned k →
      alistLookup st.client_sessions (get_access_token r) = some k) := by
  refine ⟨?_, ?_, ?_⟩
  · intro h
    simp [resolve, h1, h]
  · intro h
    refine ⟨?_, ?_, ?_, ?_⟩ <;> simp [resolve, h1, h2, h]
  · intro r k h
    by_cases hc : ∃ k', alistLookup st.client_sessions (get_access_token r) = some k'
    · obtain ⟨k', hk⟩ := hc
      simp only [resolve, hk] at h
      cases h
      exact hk
    · have hnone : alistLookup st.client_sessions (get_access_token r) = none := by
        cases hx : alistLookup st.client_sessions (get_access_token r) with
        | none => rfl
        | some k' => exact absurd ⟨k', hx⟩ hc
      simp only [resolve, hnone] at h
      cases hd : st.default_session with
      | none => rw [hd] at h; exact Transport.noConfusion h
      | some d' => rw [hd] at h; exact Transport.noConfusion h

/-- C7 witness: starting with no anonymous transport, two tokenless requests
resolve to the identical transport instance (id 0), whose construction
happened only on the first of the two. -/
theorem c7_anonymous_transport_once_witness :
    (resolve exDaemon exPlainReq).1 = Transport.anon 0 ∧
    (resolve exDaemon exPlainReq).2.default_session = some 0 ∧
    (resolve (resolve exDaemon exPlainReq).2 exPlainReq).1 = Transport.anon 0 ∧
    (resolve (resolve exDaemon exPlainReq).2 exPlainReq).2 =
      (resolve exDaemon exPlainReq).2 :=
  (c7_anonymous_transport_once exDaemon exPlainReq exPlainReq 0
    (by rfl) (by rfl)).2.1 rfl

/-- C8: every outbound request the generic forwarder builds applies the
daemon's configured forward-proxy URL, but its `ssl` keyword is the literal
`False` — TLS verification is disabled on every forwarded request, whatever
the configured `ssl` attribute says (the third conjunct: the configuration
has no influence). -/
theorem c8_ssl_always_disabled (st : ProxyDaemon) (req : Request) :
    (forward_request st req).proxy = st.proxy ∧
    (forward_request st req).ssl = some false ∧
    (forward_request { st with ssl := none } req).ssl =
      (forward_request { st with ssl := some false } req).ssl :=
  ⟨rfl, rfl, rfl⟩

/-- C9, counterexample: shutdown is not idempotent: the registry is not
cleared, so on a daemon with one registered session a second invocation
closes that session again — it does have a further effect. -/
theorem c9_second_shutdown_recloses :
    (shutdown (shutdown exDaemonReg).1).2 = [Op.closeClient 7] ∧
    ([Op.closeClient 7] : List Op) ≠ [] := by
  refine ⟨rfl, ?_⟩
  intro h
  exact List.noConfusion h

/-- C9 (amended): shutdown closes every Session currently in the registry and
then the anonymous transport if it exists (clearing only the latter); with an
empty registry and no anonymous transport it performs no close operations and
leaves the state untouched; but it is not idempotent in general: a second
invocation closes every registered Session again (never the anonymous
transport, which was reset). -/
theorem c9_shutdown_behaviour (st : ProxyDaemon) (d : Nat) :
    (∀ p ∈ st.client_sessions, Op.closeClient p.2 ∈ (shutdown st).2) ∧
    (st.default_session = some d →
      (shutdown st).2 =
        st.client_sessions.map (fun p => Op.closeClient p.2) ++ [Op.closeAnon d] ∧
      (shutdown st).1.default_session = none) ∧
    ((shutdown (shutdown st).1).2 =
      st.client_sessions.map (fun p => Op.closeClient p.2)) ∧
    (st.client_sessions = [] → st.default_session = none →
      (shutdown st).2 = [] ∧ (shutdown st).1 = st) := by
  refine ⟨?_, ?_, ?_, ?_⟩
  · intro p hp
    cases h : st.default_session with
    | none =>
      simp only [shutdown, h]
      exact List.mem_map_of_mem _ hp
    | some d' =>
      simp only [shutdown, h]
      exact List.mem_append_left _ (List.mem_map_of_mem _ hp)
  · intro h
    simp [shutdown, h]
  · cases h : st.default_session with
    | none => simp [shutdown, h]
    | some d' => simp [shutdown, h]
  · intro h1 h2
    simp [shutdown, h1, h2]

/-- C9 witness: on a daemon with one registered session and a created
anonymous transport, shutdown closes the session then the transport and
resets the latter; on a fresh daemon with neither, it performs no operations
and does not change the state. -/
theorem c9_shutdown_behaviour_witness :
    ((shutdown exDaemonAnon).2 = [Op.closeClient 7, Op.closeAnon 3] ∧
     (shutdown exDaemonAnon).1.default_session = none) ∧
    ((shutdown exDaemon).2 = [] ∧ (shutdown exDaemon).1 = exDaemon) :=
  ⟨(c9_shutdown_behaviour exDaemonAnon 3).2.1 rfl,
   (c9_shutdown_behaviour exDaemon 0).2.2.2 rfl rfl⟩

/-- C10: in the send handler the token gates run before the body is touched:
a request with a non-empty unregistered token is answered 401
`M_UNKNOWN_TOKEN` with an empty trace (no body read) whatever its body
contains, and the 400 `M_NOT_JSON` response can only arise when the token is
registered. -/
theorem c10_token_before_body (st : ProxyDaemon) (req : Request)
    (room evt txn : String) (o : SendOracle) :
    (get_access_token req ≠ "" →
      alistLookup st.client_sessions (get_access_token req) = none →
      send_message st req room evt txn o = (SendReply.response unknownTokenResponse, [])) ∧
    (∀ ops, send_message st req room evt txn o = (SendReply.response notJsonResponse, ops) →
      ∃ k, alistLookup st.client_sessions (get_access_token req) = some k) := by
  constructor
  · intro h1 h2
    simp [send_message, if_neg h1, h2]
  · intro ops h
    by_cases htok : get_access_token req = ""
    · simp [send_message, htok, missingTokenResponse, notJsonResponse,
        missingTokenBody, notJsonBody] at h
    · cases hk : alistLookup st.client_sessions (get_access_token req) with
      | none =>
        simp [send_message, if_neg htok, hk, unknownTokenResponse, notJsonResponse,
          unknownTokenBody, notJsonBody] at h
      | some k => exact ⟨k, rfl⟩

/-- C10 witness: the request bearing unregistered token `"bad"` with the
malformed body `"x"` is answered `M_UNKNOWN_TOKEN` with an empty trace, not
`M_NOT_JSON`. -/
theorem c10_token_before_body_witness :
    send_message exDaemonReg exUnknownReq "r" "e" "t" exSendOracle =
      (SendReply.response unknownTokenResponse, []) :=
  (c10_token_before_body exDaemonReg exUnknownReq "r" "e" "t" exSendOracle).1
    (by decide) (by rfl)

end Pantalaimon
